import Mathlib

/-!
Shallow embedding of the dashboard client (frontend/app.py).

This file embeds the Streamlit dashboard of this repository as pure Lean
functions and proves properties of the embedding.

Modelling conventions:

* A backend call outcome is an abstract input: either a transport exception
  (connection error, timeout, ...) or a decoded status code together with an
  already-parsed JSON body.  The script is a pure function of these outcomes
  and of the UI widget state.
* JSON numbers and the numeric values the program computes are exact decimals
  (an integer mantissa and a decimal exponent): every numeric literal in the
  program (75.4, 1_000_000, parsed percentage strings) is an exact decimal,
  so this represents the Python float values exactly at every point the
  program observes them.  A separate constructor models the pandas NaN cell
  produced by string accessor operations on non-string cells.
* One render cycle is a top-to-bottom run of the script.  An uncaught Python
  exception stops the script; this is modelled by a Bool flag: a block either
  completes, or stops the render after emitting the requests and widgets
  produced up to the exception point.
* Purely presentational output (sidebar image, headers, markdown labels,
  st.columns layout) is not modelled; metrics, charts, tables, messages and
  the download button are.
* The Python expression list(set(...)) enumerates a set in unspecified order;
  it is modelled by List.dedup, and order-insensitive statements are proved
  about it.
-/

/-- An exact decimal number m / 10 ^ e.  All arithmetic the dashboard
performs (multiplication by 1,000,000 and by 10, rounding for display)
stays inside exact decimals. -/
structure Dec where
  m : ℤ
  e : ℕ
deriving DecidableEq

instance (n : ℕ) : OfNat Dec n := ⟨⟨n, 0⟩⟩

instance : OfScientific Dec :=
  ⟨fun m b e => if b then ⟨m, e⟩ else ⟨(m : ℤ) * 10 ^ e, 0⟩⟩

/-- Product of exact decimals (no normalisation needed). -/
instance : Mul Dec := ⟨fun a b => ⟨a.m * b.m, a.e + b.e⟩⟩

instance : Neg Dec := ⟨fun a => ⟨-a.m, a.e⟩⟩

/-- The rational value denoted by an exact decimal. -/
def Dec.toRat (d : Dec) : ℚ := (d.m : ℚ) / 10 ^ d.e

/-- Floor of an exact decimal as an integer. -/
def Dec.floorZ (d : Dec) : ℤ := Int.fdiv d.m (10 ^ d.e)

/-- Round half to even, the rounding applied by Python string formatting.
The fractional part of d is (m - floor * 10 ^ e) / 10 ^ e; it is compared
with one half by cross multiplication. -/
def Dec.roundHalfEven (d : Dec) : ℤ :=
  let f := d.floorZ
  let rnum := d.m - f * 10 ^ d.e
  if 2 * rnum < 10 ^ d.e then f
  else if (10 : ℤ) ^ d.e < 2 * rnum then f + 1
  else if f % 2 = 0 then f else f + 1

/-- JSON-like values decoded from a backend response body, plus the pandas
NaN cell. -/
inductive Json where
  | null
  | nan
  | bool (b : Bool)
  | num (d : Dec)
  | str (s : String)
  | arr (elems : List Json)
  | obj (fields : List (String × Json))

/-- Field lookup in a decoded JSON object, first occurrence wins
(decoded Python dicts have unique keys). -/
def lookupField : List (String × Json) → String → Option Json
  | [], _ => none
  | (k, v) :: rest, key => if k = key then some v else lookupField rest key

/-- Python: data[key] / data.get(key) for a dict; none when data is not a
dict or the key is absent. -/
def Json.getField : Json → String → Option Json
  | .obj fs, key => lookupField fs key
  | _, _ => none

/-- Replace (or append) a field of a JSON object; non-objects unchanged. -/
def setFields : List (String × Json) → String → Json → List (String × Json)
  | [], key, v => [(key, v)]
  | (k, w) :: rest, key, v =>
    if k = key then (k, v) :: rest else (k, w) :: setFields rest key v

/-- Column assignment on a dataframe row. -/
def Json.setField : Json → String → Json → Json
  | .obj fs, key, v => .obj (setFields fs key v)
  | j, _, _ => j

/-- Whether the decoded body is a JSON list (Python isinstance(data, list)). -/
def Json.isArr : Json → Bool
  | .arr _ => true
  | _ => false

/-- Python: data if isinstance(data, list) else [data]. -/
def normalizeToList (j : Json) : List Json :=
  match j with
  | .arr xs => xs
  | _ => [j]

/-- Value of a natural number written by a list of decimal digit characters. -/
def natOfDigits (cs : List Char) : ℕ :=
  cs.foldl (fun a c => a * 10 + (c.toNat - 48)) 0

/-- Strip leading and trailing whitespace from a character list
(Python str.strip and the whitespace tolerance of float). -/
def trimChars (cs : List Char) : List Char :=
  ((cs.dropWhile Char.isWhitespace).reverse.dropWhile Char.isWhitespace).reverse

/-- Python str.strip(). -/
def pyStrip (s : String) : String := String.mk (trimChars s.toList)

/-- Parse an unsigned decimal literal (digits with at most one point), the
fragment of Python float() exercised by the program. -/
def parseUnsigned (cs : List Char) : Option Dec :=
  match cs.splitOn '.' with
  | [w] =>
    if w ≠ [] ∧ w.all Char.isDigit then some ⟨natOfDigits w, 0⟩ else none
  | [w, f] =>
    if (w ≠ [] ∨ f ≠ []) ∧ w.all Char.isDigit ∧ f.all Char.isDigit then
      some ⟨natOfDigits w * 10 ^ f.length + natOfDigits f, f.length⟩
    else none
  | _ => none

/-- Python float(s) on the decimal fragment: optional surrounding whitespace,
optional sign, decimal literal; none models a ValueError. -/
def parseDecimal (s : String) : Option Dec :=
  match trimChars s.toList with
  | '-' :: rest => (parseUnsigned rest).map Neg.neg
  | '+' :: rest => parseUnsigned rest
  | t => parseUnsigned t

/-- Python s.replace with empty replacement of the percent sign: removes
every occurrence, not only a trailing one. -/
def stripPct (s : String) : String :=
  String.mk (s.toList.filter (fun c => c ≠ '%'))

/-- Modelled from the spec: the value description in section 8, a trailing
percent suffix stripped and nothing else.  Used only to compare the spec
wording with what the code computes. -/
def specStripTrailingPct (s : String) : String :=
  match s.toList.getLast? with
  | some '%' => String.mk s.toList.dropLast
  | _ => s

/-- Insert a comma after every three digits of a least-significant-first
digit list. -/
def commaChunk : List Char → List Char
  | [] => []
  | [a] => [a]
  | [a, b] => [a, b]
  | [a, b, c] => [a, b, c]
  | a :: b :: c :: d :: rest => a :: b :: c :: ',' :: commaChunk (d :: rest)

/-- Decimal digits of a natural number with thousands separators, as produced
by the comma option of Python format. -/
def commaFmt (n : ℕ) : String :=
  String.mk (commaChunk (Nat.toDigits 10 n).reverse).reverse

/-- Python format spec with comma grouping and zero decimals applied to an
exact decimal. -/
def pyFormatComma0 (d : Dec) : String :=
  let z := d.roundHalfEven
  (if z < 0 then "-" else "") ++ commaFmt z.natAbs

/-- Python format spec with one decimal applied to an exact decimal. -/
def pyFormat1f (d : Dec) : String :=
  let z := Dec.roundHalfEven ⟨d.m * 10, d.e⟩
  let a := z.natAbs
  (if z < 0 then "-" else "") ++ toString (a / 10) ++ "." ++ toString (a % 10)


/-- The four datasets of the Data Explorer selectbox and of the download
selectbox (the same fixed enumeration in the source). -/
inductive Dataset where
  | halal_ecommerce
  | ict_services
  | internet_penetration
  | islamic_fintech
deriving DecidableEq

/-- The dataset name as it appears in request paths. -/
def Dataset.dsName : Dataset → String
  | .halal_ecommerce => "halal_ecommerce"
  | .ict_services => "ict_services"
  | .internet_penetration => "internet_penetration"
  | .islamic_fintech => "islamic_fintech"

/-- The four mutually exclusive views of the navigation menu. -/
inductive View where
  | halalEcommerce
  | ictFintech
  | aiInsights
  | dataExplorer
deriving DecidableEq

/-- One HTTP request the script attempts, one constructor per call site
shape; the argument fields carry the data that varies at the call site. -/
inductive Request where
  | health
  | queryHalal
  | aggRevenue
  | aggGrossOutput
  | queryPenetration
  | aiQuery (question : String)
  | queryExplorer (dataset : Dataset) (countries : List String)
  | summary (dataset : String)
  | queryProfile (dataset : String) (country : String)
  | aggCount (endpoint : String)
  | download (dataset : Dataset)
deriving DecidableEq

/-- The URL path of a request (relative to the backend base URL). -/
def Request.path : Request → String
  | .health => "/health"
  | .queryHalal => "/query/halal_ecommerce"
  | .aggRevenue => "/aggregation/halal_ecommerce"
  | .aggGrossOutput => "/aggregation/ict_services"
  | .queryPenetration => "/query/internet_penetration"
  | .aiQuery _ => "/ai_query"
  | .queryExplorer d _ => "/query/" ++ d.dsName
  | .summary d => "/summary/" ++ d
  | .queryProfile d _ => "/query/" ++ d
  | .aggCount e => "/aggregation/" ++ e
  | .download d => "/download/" ++ d.dsName

/-- Outcome of one backend call: a transport exception raised by the HTTP
library, or a response with a status code and a decoded JSON body. -/
inductive HttpResult where
  | exn
  | ok (status : ℕ) (body : Json)

/-- The call returned a response whose status is not 200. -/
def HttpResult.isNon200 : HttpResult → Bool
  | .ok s _ => s != 200
  | .exn => false

/-- One backend, as the render pass observes it: the outcome of each call
site, with the data that varies at the call site as arguments. -/
structure Backend where
  health : HttpResult
  queryHalal : HttpResult
  aggRevenue : HttpResult
  aggGrossOutput : HttpResult
  queryPenetration : HttpResult
  aiQuery : String → HttpResult
  queryExplorer : Dataset → List String → HttpResult
  summaryHalal : HttpResult
  summaryFintech : HttpResult
  summaryIct : HttpResult
  summaryHousehold : HttpResult
  profileHalal : String → HttpResult
  profileFintech : String → HttpResult
  aggCount : String → HttpResult
  download : Dataset → HttpResult

/-- The widget state that seeds one render cycle. -/
structure UIState where
  view : View
  aiText : String
  aiPressed : Bool
  explorerDataset : Dataset
  explorerCountries : List String
  profileCountry : String
  report : Dataset

/-- The non-presentational output the render pass produces. -/
inductive Widget where
  | metric (label text : String)
  | chart (kind xcol ycol : String) (rows : List Json) (rangeY : Option (Dec × Dec))
  | table (rows : List Json)
  | groupedChart (rows : List (String × String × Dec))
  | answer (content : Json)
  | aiError (body : Json)
  | warning (text : String)
  | info (text : String)
  | errorText (text : String)
  | downloadButton (fileName : String)

/-- What one section of the script produces: the requests it attempted, the
widgets it emitted, and whether it completed (ok = false models an uncaught
Python exception that stops the rest of the render pass). -/
structure BlockOut where
  reqs : List Request
  widgets : List Widget
  ok : Bool

/-- Run section b after section a: an uncaught exception in a skips b. -/
def seqB (a b : BlockOut) : BlockOut :=
  if a.ok then ⟨a.reqs ++ b.reqs, a.widgets ++ b.widgets, b.ok⟩ else a

/-- pandas pd.DataFrame on a decoded JSON value, for the shapes the program
can pass it: a list becomes one row per element; a dict needs all values to
be equal-length lists (columns) and is transposed into rows; a dict with a
scalar value, or a scalar, raises ValueError (modelled by none). -/
def pdDataFrame : Json → Option (List Json)
  | .arr xs => some xs
  | .obj fs =>
    if fs.isEmpty then some []
    else
      match fs.mapM (fun p => match p.2 with
        | .arr xs => some (p.1, xs)
        | _ => none) with
      | none => none
      | some cols =>
        match cols with
        | [] => some []
        | (k0, xs0) :: rest =>
          if rest.all (fun p => p.2.length = xs0.length) then
            some ((List.range xs0.length).map (fun i =>
              .obj (((k0, xs0) :: rest).map (fun p => (p.1, p.2.getD i .null)))))
          else none
  | _ => none

/-- pandas df.empty for a dataframe built from a row list: true when there
are no rows or no columns. -/
def dfEmpty (rows : List Json) : Bool :=
  rows.isEmpty || rows.all (fun r => match r with | .obj [] => true | _ => false)

/-- app.py line 15: the health-check function.  It requests /health with
timeout 10 and returns whether the status is 200; a transport exception
yields False.  Nothing in the script calls it: the call site (lines 23-25)
is commented out. -/
def check_backend (bk : Backend) : Bool :=
  match bk.health with
  | .ok s _ => s == 200
  | .exn => false

/-- The fixed fallback country list of app.py lines 34 and 36. -/
def defaultCountries : List String := ["Malaysia", "Indonesia", "Saudi Arabia"]

/-- row["country"] for one row of the filter-source response: the row must
be a dict with a string country value; anything else raises inside the
comprehension (and the surrounding try falls back). -/
def extractCountry (j : Json) : Option String :=
  match j.getField "country" with
  | some (.str c) => some c
  | _ => none

/-- The countries of all rows, none when any row raises. -/
def extractCountryList (rows : List Json) : Option (List String) :=
  rows.mapM extractCountry

/-- app.py lines 32-36: the country selector options.  On a 200 response the
distinct country values of the rows (list(set(...)), modelled by dedup); on
a non-200 status, a transport exception, or any error while reading the
rows, the fixed default list. -/
def countriesResult (bk : Backend) : List String :=
  match bk.queryHalal with
  | .exn => defaultCountries
  | .ok s body =>
    if s = 200 then
      match body with
      | .arr rows =>
        match extractCountryList rows with
        | some cs => cs.dedup
        | none => defaultCountries
      | _ => defaultCountries
    else defaultCountries

/-- app.py lines 56-74 and 79-97: fetch an aggregation, and when the status
is 200 tabulate the body (normalising a single object to a one-element
list) and render a chart unless the dataframe is empty.  A transport
exception is uncaught. -/
def aggChartBlock (req : Request) (kind : String) (r : HttpResult) : BlockOut :=
  match r with
  | .exn => ⟨[req], [], false⟩
  | .ok s body =>
    if s = 200 then
      let rows := normalizeToList body
      if dfEmpty rows then ⟨[req], [], true⟩
      else ⟨[req], [.chart kind "country" "total" rows none], true⟩
    else ⟨[req], [], true⟩

/-- app.py line 104: transform one row's internet_penetration cell: a string
cell has every percent sign removed and is parsed as a float (an unparsable
string raises ValueError, modelled by none); a non-string or missing cell
becomes NaN under the pandas str accessor. -/
def penRow (r : Json) : Option Json :=
  match r.getField "internet_penetration" with
  | some (.str s) =>
    (parseDecimal (stripPct s)).map (fun d => r.setField "internet_penetration" (.num d))
  | _ => some (r.setField "internet_penetration" .nan)

/-- The whole-column transform of app.py line 104; none models an uncaught
exception (KeyError when no row has the column, or ValueError from float
parsing). -/
def penDf (rows : List Json) : Option (List Json) :=
  if rows.any (fun r => (r.getField "internet_penetration").isSome) then
    rows.mapM penRow
  else none

/-- app.py lines 98-114: the internet penetration half of the ICT & Fintech
view: fetch the raw query; on 200 tabulate, and unless empty transform the
penetration column and render a bar chart with y range fixed to [0, 100]. -/
def ictCol2 (bk : Backend) : BlockOut :=
  match bk.queryPenetration with
  | .exn => ⟨[.queryPenetration], [], false⟩
  | .ok s body =>
    if s = 200 then
      let rows := normalizeToList body
      if dfEmpty rows then ⟨[.queryPenetration], [], true⟩
      else
        match penDf rows with
        | none => ⟨[.queryPenetration], [], false⟩
        | some rows2 =>
          ⟨[.queryPenetration],
           [.chart "bar" "country" "internet_penetration" rows2 (some (0, 100))], true⟩
    else ⟨[.queryPenetration], [], true⟩

/-- The submit condition of app.py line 120: the button was pressed and the
query is non-empty after stripping whitespace. -/
def aiSubmit (pressed : Bool) (text : String) : Bool :=
  pressed && !(pyStrip text == "")

/-- app.py lines 117-131: the AI Insights view.  Only a submitted non-blank
query issues the POST, with the raw (unstripped) text as the body.  On 200
the answer field (or a default) is rendered, and a result field is
tabulated without list normalisation; on non-200 an error message carrying
the response body.  A transport exception is uncaught. -/
def aiBlock (bk : Backend) (pressed : Bool) (text : String) : BlockOut :=
  if aiSubmit pressed text then
    match bk.aiQuery text with
    | .exn => ⟨[.aiQuery text], [], false⟩
    | .ok s body =>
      if s = 200 then
        match body with
        | .obj fs =>
          let ans := (lookupField fs "answer").getD (.str "No answer returned.")
          match lookupField fs "result" with
          | none => ⟨[.aiQuery text], [.answer ans], true⟩
          | some res =>
            match pdDataFrame res with
            | none => ⟨[.aiQuery text], [.answer ans], false⟩
            | some rows => ⟨[.aiQuery text], [.answer ans, .table rows], true⟩
        | _ => ⟨[.aiQuery text], [], false⟩
      else ⟨[.aiQuery text], [.aiError body], true⟩
  else ⟨[], [], true⟩

/-- app.py lines 134-144: the Data Explorer view: fetch the selected dataset
filtered by the selected countries; on 200 tabulate (with list
normalisation) and show the table, else a warning.  A transport exception
is uncaught. -/
def explorerBlock (bk : Backend) (ds : Dataset) (fc : List String) : BlockOut :=
  match bk.queryExplorer ds fc with
  | .exn => ⟨[.queryExplorer ds fc], [], false⟩
  | .ok s body =>
    if s = 200 then ⟨[.queryExplorer ds fc], [.table (normalizeToList body)], true⟩
    else ⟨[.queryExplorer ds fc], [.warning "No data available for this selection."], true⟩

/-- app.py lines 46-144: the view selected by the navigation menu.  The two
halves of the ICT & Fintech view run in sequence, so an uncaught exception
in the first half also skips the second. -/
def viewBlock (bk : Backend) (ui : UIState) (countries : List String) : BlockOut :=
  match ui.view with
  | .halalEcommerce => aggChartBlock .aggRevenue "bar" bk.aggRevenue
  | .ictFintech => seqB (aggChartBlock .aggGrossOutput "area" bk.aggGrossOutput) (ictCol2 bk)
  | .aiInsights => aiBlock bk ui.aiPressed ui.aiText
  | .dataExplorer =>
    explorerBlock bk ui.explorerDataset
      (ui.explorerCountries.filter (fun c => countries.contains c))

/-- The default dict of app.py line 152. -/
def dfltHalalSummary : Json := .obj [("count", .num 0), ("avg_growth_rate", .num 0)]

/-- The default dict of app.py lines 157 and 162. -/
def dfltCountSummary : Json := .obj [("count", .num 0)]

/-- The currency text of app.py lines 153, 158, 163: the count times
1,000,000, comma formatted with zero decimals, between a dollar sign and
USD. -/
def usdText (d : Dec) : String := "$" ++ pyFormatComma0 (d * 1000000) ++ " USD"

/-- One count metric of the summary section (app.py lines 150-163): on a
non-200 status the default dict is substituted; data.get returns 0 when the
count key is absent; none models an uncaught exception (transport, or a
body shape the f-string cannot format). -/
def countText (dflt : Json) (r : HttpResult) : Option String :=
  match r with
  | .exn => none
  | .ok s body =>
    match (if s = 200 then body else dflt) with
    | .obj fs =>
      match lookupField fs "count" with
      | none => some (usdText 0)
      | some (.num d) => some (usdText d)
      | some _ => none
    | _ => none

/-- The fourth summary metric (app.py lines 165-168): avg_growth_rate with
default 75.4, formatted with one decimal and a percent sign. -/
def growthText (r : HttpResult) : Option String :=
  match r with
  | .exn => none
  | .ok s body =>
    match (if s = 200 then body else Json.obj [("avg_growth_rate", .num 75.4)]) with
    | .obj fs =>
      match lookupField fs "avg_growth_rate" with
      | none => some (pyFormat1f 75.4 ++ "%")
      | some (.num d) => some (pyFormat1f d ++ "%")
      | some _ => none
    | _ => none

/-- app.py lines 146-168: the four summary metrics, fetched and rendered in
order; an uncaught exception stops the remaining metrics (and the rest of
the render pass). -/
def summaryBlock (bk : Backend) : BlockOut :=
  match countText dfltHalalSummary bk.summaryHalal with
  | none => ⟨[.summary "halal_ecommerce"], [], false⟩
  | some t1 =>
    match countText dfltCountSummary bk.summaryFintech with
    | none => ⟨[.summary "halal_ecommerce", .summary "islamic_fintech"],
               [.metric "Total Halal Revenue" t1], false⟩
    | some t2 =>
      match countText dfltCountSummary bk.summaryIct with
      | none => ⟨[.summary "halal_ecommerce", .summary "islamic_fintech",
                  .summary "ict_services"],
                 [.metric "Total Halal Revenue" t1,
                  .metric "Total Fintech Transactions" t2], false⟩
      | some t3 =>
        match growthText bk.summaryHousehold with
        | none => ⟨[.summary "halal_ecommerce", .summary "islamic_fintech",
                    .summary "ict_services", .summary "household_ict"],
                   [.metric "Total Halal Revenue" t1,
                    .metric "Total Fintech Transactions" t2,
                    .metric "Total ICT Output" t3], false⟩
        | some t4 => ⟨[.summary "halal_ecommerce", .summary "islamic_fintech",
                       .summary "ict_services", .summary "household_ict"],
                      [.metric "Total Halal Revenue" t1,
                       .metric "Total Fintech Transactions" t2,
                       .metric "Total ICT Output" t3,
                       .metric "Average Internet Usage" t4], true⟩

/-- A Streamlit selectbox: the remembered choice when it is still among the
options, else the first option; none when there are no options. -/
def selectboxChoice (options : List String) (pref : String) : Option String :=
  if pref ∈ options then some pref else options.head?

/-- One country profile table (app.py lines 178-180 and 183-185): the body
on a 200 status, else an empty list, passed to pd.DataFrame without list
normalisation; none models an uncaught exception (transport, or ValueError
from a scalar dict). -/
def profileTable (r : HttpResult) : Option (List Json) :=
  match r with
  | .exn => none
  | .ok s body => pdDataFrame (if s = 200 then body else .arr [])

/-- app.py lines 170-185: the country profile tool: a selectbox over the
filter countries, and for a truthy selection two query calls rendered as
tables. -/
def profileBlock (bk : Backend) (countries : List String) (pref : String) : BlockOut :=
  match selectboxChoice countries pref with
  | none => ⟨[], [], true⟩
  | some c =>
    if c = "" then ⟨[], [], true⟩
    else
      match profileTable (bk.profileHalal c) with
      | none => ⟨[.queryProfile "halal_ecommerce" c], [], false⟩
      | some rows1 =>
        match profileTable (bk.profileFintech c) with
        | none => ⟨[.queryProfile "halal_ecommerce" c, .queryProfile "islamic_fintech" c],
                   [.table rows1], false⟩
        | some rows2 =>
          ⟨[.queryProfile "halal_ecommerce" c, .queryProfile "islamic_fintech" c],
           [.table rows1, .table rows2], true⟩

/-- The Country Totals Accumulator (app.py line 194): country name, in
insertion order, to sector label, in insertion order, to total. -/
abbrev CTAcc := List (String × List (String × Dec))

/-- country_totals[country][label] = total (overwrite or append). -/
def innerSet : List (String × Dec) → String → Dec → List (String × Dec)
  | [], l, v => [(l, v)]
  | (k, w) :: rest, l, v =>
    if k = l then (k, v) :: rest else (k, w) :: innerSet rest l v

/-- app.py lines 205-207: insert one (country, label, total) into the
accumulator, creating the country entry when absent. -/
def accInsert : CTAcc → String → String → Dec → CTAcc
  | [], c, l, v => [(c, [(l, v)])]
  | (k, inner) :: rest, c, l, v =>
    if k = c then (k, innerSet inner l v) :: rest
    else (k, inner) :: accInsert rest c l v

/-- row["country"] and row["total"] of one aggregation row; none models the
exception (KeyError / TypeError) the loop body raises on a malformed row,
which the surrounding except catches. -/
def rowCountryTotal (r : Json) : Option (String × Dec) :=
  match r.getField "country", r.getField "total" with
  | some (.str c), some (.num t) => some (c, t)
  | _, _ => none

/-- app.py lines 202-207: fold the rows of one endpoint into the
accumulator, storing total * 1,000,000; an exception on a row stops this
endpoint's loop (the rows already accumulated stay). -/
def accumRows (label : String) (acc : CTAcc) : List Json → CTAcc
  | [] => acc
  | r :: rest =>
    match rowCountryTotal r with
    | some (c, t) => accumRows label (accInsert acc c label (t * 1000000)) rest
    | none => acc

/-- app.py lines 197-209: one iteration of the comparison loop: a transport
exception or a non-200 status contributes nothing; a 200 body is tabulated
with list normalisation and accumulated. -/
def endpointAcc (label : String) (r : HttpResult) (acc : CTAcc) : CTAcc :=
  match r with
  | .exn => acc
  | .ok s body => if s = 200 then accumRows label acc (normalizeToList body) else acc

/-- app.py lines 189-209: the three (label, endpoint) pairs in dict order. -/
def comparisonAcc (bk : Backend) : CTAcc :=
  endpointAcc "ICT Services" (bk.aggCount "ict_services")
    (endpointAcc "Islamic Fintech" (bk.aggCount "islamic_fintech")
      (endpointAcc "Halal E-commerce" (bk.aggCount "halal_ecommerce") []))

/-- The countries of the accumulator, in insertion order (the dataframe
index of line 212). -/
def accCountries (acc : CTAcc) : List String := acc.map (fun p => p.1)

/-- The sector labels appearing in the accumulator, in order of first
appearance (the dataframe columns of line 212). -/
def accLabels (acc : CTAcc) : List String :=
  (acc.flatMap (fun p => p.2.map (fun q => q.1))).dedup

/-- The accumulated total of one (country, label) cell. -/
def accLookup (acc : CTAcc) (c l : String) : Option Dec :=
  (acc.lookup c).bind (fun inner => inner.lookup l)

/-- app.py lines 212-213: from_dict + fillna(0) + melt: one long-form row
per (label, country) pair of the accumulator, value 0 where the cell is
missing; melt orders by value column first, then by dataframe row. -/
def meltRows (acc : CTAcc) : List (String × String × Dec) :=
  (accLabels acc).flatMap (fun l =>
    (accCountries acc).map (fun c => (c, l, (accLookup acc c l).getD 0)))

/-- app.py lines 188-224: the cross-sector comparison: accumulate the three
endpoints, and only when the accumulator is non-empty render the grouped
bar chart of the filled, melted table. -/
def comparisonBlock (bk : Backend) : BlockOut :=
  let acc := comparisonAcc bk
  let reqs := [Request.aggCount "halal_ecommerce", Request.aggCount "islamic_fintech",
               Request.aggCount "ict_services"]
  if acc.isEmpty then ⟨reqs, [], true⟩
  else ⟨reqs, [.groupedChart (meltRows acc)], true⟩

/-- app.py lines 226-244: the report download: a 200 response exposes a
download button named dataset.csv; a non-200 status shows an informational
message; a transport exception is caught and shows an error message. -/
def downloadBlock (bk : Backend) (ds : Dataset) : BlockOut :=
  match bk.download ds with
  | .exn => ⟨[.download ds], [.errorText "Error downloading report"], true⟩
  | .ok s _ =>
    if s = 200 then ⟨[.download ds], [.downloadButton (ds.dsName ++ ".csv")], true⟩
    else ⟨[.download ds], [.info "Report not available for download."], true⟩

/-- One full render cycle of app.py, top to bottom: country selector, the
selected view, the summary metrics, the country profile, the cross-sector
comparison, the download section.  No call to check_backend occurs (the
gating block is commented out in the source). -/
def render (bk : Backend) (ui : UIState) : BlockOut :=
  let countries := countriesResult bk
  seqB ⟨[.queryHalal], [], true⟩
    (seqB (viewBlock bk ui countries)
      (seqB (summaryBlock bk)
        (seqB (profileBlock bk countries ui.profileCountry)
          (seqB (comparisonBlock bk) (downloadBlock bk ui.report)))))

/-- A backend whose every call succeeds with a well-formed body. -/
def okBackend : Backend where
  health := .ok 200 .null
  queryHalal := .ok 200 (.arr [.obj [("country", .str "Malaysia")]])
  aggRevenue := .ok 200 (.arr [])
  aggGrossOutput := .ok 200 (.arr [])
  queryPenetration := .ok 200 (.arr [])
  aiQuery := fun _ => .ok 200 (.obj [("answer", .str "ok")])
  queryExplorer := fun _ _ => .ok 200 (.arr [])
  summaryHalal := .ok 200 (.obj [("count", .num 1)])
  summaryFintech := .ok 200 (.obj [("count", .num 1)])
  summaryIct := .ok 200 (.obj [("count", .num 1)])
  summaryHousehold := .ok 200 (.obj [("avg_growth_rate", .num 80)])
  profileHalal := fun _ => .ok 200 (.arr [])
  profileFintech := fun _ => .ok 200 (.arr [])
  aggCount := fun _ => .ok 200 (.arr [])
  download := fun _ => .ok 200 .null

/-- A plain UI state: first view selected, nothing typed, defaults. -/
def ui0 : UIState where
  view := .halalEcommerce
  aiText := ""
  aiPressed := false
  explorerDataset := .halal_ecommerce
  explorerCountries := []
  profileCountry := "Malaysia"
  report := .halal_ecommerce

/-- A backend whose every call returns a response with status 500. -/
def bk500 : Backend where
  health := .ok 500 .null
  queryHalal := .ok 500 .null
  aggRevenue := .ok 500 .null
  aggGrossOutput := .ok 500 .null
  queryPenetration := .ok 500 .null
  aiQuery := fun _ => .ok 500 .null
  queryExplorer := fun _ _ => .ok 500 .null
  summaryHalal := .ok 500 .null
  summaryFintech := .ok 500 .null
  summaryIct := .ok 500 .null
  summaryHousehold := .ok 500 .null
  profileHalal := fun _ => .ok 500 .null
  profileFintech := fun _ => .ok 500 .null
  aggCount := fun _ => .ok 500 .null
  download := fun _ => .ok 500 .null

/-- Like okBackend, but the first summary call raises a transport
exception. -/
def bkSummaryExn : Backend := { okBackend with summaryHalal := .exn }

/-- Like okBackend, but of the three comparison aggregations only the first
succeeds (with one Malaysia row of total 2); the other two raise transport
exceptions. -/
def bkOneSector : Backend :=
  { okBackend with
    aggCount := fun e =>
      if e = "halal_ecommerce" then
        .ok 200 (.arr [.obj [("country", .str "Malaysia"), ("total", .num 2)]])
      else .exn }

/-- Like okBackend, but all three comparison aggregations return one
Malaysia row of total 2 (the worked example of spec section 8). -/
def bkThreeSectors : Backend :=
  { okBackend with
    aggCount := fun _ =>
      .ok 200 (.arr [.obj [("country", .str "Malaysia"), ("total", .num 2)]]) }

/-- Like okBackend, but the profile halal query returns a single scalar
dict instead of a list. -/
def bkScalarProfile : Backend :=
  { okBackend with profileHalal := fun _ => .ok 200 (.obj [("a", .num 1)]) }

/-- Like okBackend, but the penetration query returns one row whose value
has a leading (not trailing) percent sign. -/
def bkPenLeading : Backend :=
  { okBackend with
    queryPenetration :=
      .ok 200 (.arr [.obj [("country", .str "X"),
                           ("internet_penetration", .str "%45.2")]]) }

/-- Like okBackend, but the penetration query returns one ordinary row. -/
def bkPenPlain : Backend :=
  { okBackend with
    queryPenetration :=
      .ok 200 (.arr [.obj [("country", .str "X"),
                           ("internet_penetration", .str "45.2%")]]) }

/-- Like okBackend, but all three comparison aggregations raise. -/
def bkCompExn : Backend := { okBackend with aggCount := fun _ => .exn }

/-- The accumulator of the worked example of spec section 8. -/
def accEx : CTAcc :=
  [("Malaysia", [("Halal E-commerce", 2000000), ("Islamic Fintech", 2000000),
                 ("ICT Services", 2000000)])]

/-- The UI state of an AI Insights render with a submitted query carrying
surrounding whitespace. -/
def uiAI : UIState := { ui0 with view := .aiInsights, aiPressed := true, aiText := " hi " }

/-- Whether a request is the AI query POST. -/
def Request.isAiQ : Request → Bool
  | .aiQuery _ => true
  | _ => false

/-- No request of this section is the AI query POST. -/
def noAiReqs (o : BlockOut) : Bool := o.reqs.all (fun r => !r.isAiQ)

/-- No request of this section has the health path. -/
def noHealthReqs (o : BlockOut) : Bool := o.reqs.all (fun r => r.path != "/health")

/-- Every call site outside a try block returned a response with a non-200
status (the guarded sites - filter source, the three comparison
aggregations, download - are unconstrained). -/
def unguardedNon200 (bk : Backend) : Prop :=
  bk.aggRevenue.isNon200 = true ∧
  bk.aggGrossOutput.isNon200 = true ∧
  bk.queryPenetration.isNon200 = true ∧
  (∀ q, (bk.aiQuery q).isNon200 = true) ∧
  (∀ ds fc, (bk.queryExplorer ds fc).isNon200 = true) ∧
  bk.summaryHalal.isNon200 = true ∧
  bk.summaryFintech.isNon200 = true ∧
  bk.summaryIct.isNon200 = true ∧
  bk.summaryHousehold.isNon200 = true ∧
  (∀ c, (bk.profileHalal c).isNon200 = true) ∧
  (∀ c, (bk.profileFintech c).isNon200 = true)

/-- Like okBackend, but the filter-source call raises a transport
exception. -/
def bkFilterExn : Backend := { okBackend with queryHalal := .exn }

/-- Like okBackend, but the first summary call returns status 500. -/
def bkSummary500 : Backend := { okBackend with summaryHalal := .ok 500 .null }

/-- Like okBackend, but the explorer query returns a single object. -/
def bkExplorerObj : Backend :=
  { okBackend with queryExplorer := fun _ _ => .ok 200 (.obj [("x", .num 1)]) }

/-- A UI state sitting on the Data Explorer view. -/
def uiExplorer : UIState := { ui0 with view := .dataExplorer }

theorem seqB_ok (a b : BlockOut) : (seqB a b).ok = (a.ok && b.ok) := by
  unfold seqB; split <;> simp_all

theorem mem_seqB_reqs {r : Request} {a b : BlockOut} (h : r ∈ (seqB a b).reqs) :
    r ∈ a.reqs ∨ r ∈ b.reqs := by
  unfold seqB at h
  split at h
  · exact List.mem_append.mp h
  · exact Or.inl h

theorem mem_seqB_left {r : Request} {a : BlockOut} (b : BlockOut) (h : r ∈ a.reqs) :
    r ∈ (seqB a b).reqs := by
  unfold seqB; split
  · exact List.mem_append.mpr (Or.inl h)
  · exact h

theorem mem_seqB_right {r : Request} {a b : BlockOut} (ha : a.ok = true) (h : r ∈ b.reqs) :
    r ∈ (seqB a b).reqs := by
  unfold seqB; rw [if_pos ha]
  exact List.mem_append.mpr (Or.inr h)

theorem seqB_noAi {a b : BlockOut} (ha : noAiReqs a = true) (hb : noAiReqs b = true) :
    noAiReqs (seqB a b) = true := by
  unfold seqB noAiReqs at *
  split
  · simp_all
  · exact ha

theorem aggChartBlock_noAi (req : Request) (kind : String) (r : HttpResult)
    (h : req.isAiQ = false) : noAiReqs (aggChartBlock req kind r) = true := by
  unfold aggChartBlock noAiReqs
  repeat' (first | split | dsimp only)
  all_goals simp [h]

theorem ictCol2_noAi (bk : Backend) : noAiReqs (ictCol2 bk) = true := by
  unfold ictCol2 noAiReqs
  repeat' (first | split | dsimp only)
  all_goals rfl

theorem summaryBlock_noAi (bk : Backend) : noAiReqs (summaryBlock bk) = true := by
  unfold summaryBlock noAiReqs
  repeat' (first | split | dsimp only)
  all_goals rfl

theorem profileBlock_noAi (bk : Backend) (cs : List String) (pref : String) :
    noAiReqs (profileBlock bk cs pref) = true := by
  unfold profileBlock noAiReqs
  repeat' (first | split | dsimp only)
  all_goals rfl

theorem comparisonBlock_noAi (bk : Backend) : noAiReqs (comparisonBlock bk) = true := by
  unfold comparisonBlock noAiReqs
  dsimp only
  split <;> rfl

theorem downloadBlock_noAi (bk : Backend) (ds : Dataset) :
    noAiReqs (downloadBlock bk ds) = true := by
  unfold downloadBlock noAiReqs
  repeat' (first | split | dsimp only)
  all_goals rfl

theorem explorerBlock_noAi (bk : Backend) (ds : Dataset) (fc : List String) :
    noAiReqs (explorerBlock bk ds fc) = true := by
  unfold explorerBlock noAiReqs
  repeat' (first | split | dsimp only)
  all_goals rfl

theorem aiBlock_reqs (bk : Backend) (p : Bool) (t : String) :
    (aiBlock bk p t).reqs = if aiSubmit p t then [.aiQuery t] else [] := by
  unfold aiBlock
  split
  · repeat' (first | split | dsimp only)
  · rfl

theorem mem_noAi {q : String} {o : BlockOut} (h : noAiReqs o = true)
    (hm : Request.aiQuery q ∈ o.reqs) : False := by
  have := List.all_eq_true.mp h _ hm
  simp [Request.isAiQ] at this

theorem seqB_noHealth {a b : BlockOut} (ha : noHealthReqs a = true)
    (hb : noHealthReqs b = true) : noHealthReqs (seqB a b) = true := by
  unfold seqB noHealthReqs at *
  split
  · simp_all
  · exact ha

theorem aggChartBlock_noHealth (req : Request) (kind : String) (r : HttpResult)
    (h : (req.path != "/health") = true) : noHealthReqs (aggChartBlock req kind r) = true := by
  unfold aggChartBlock noHealthReqs
  repeat' (first | split | dsimp only)
  all_goals simp [h]

theorem ictCol2_noHealth (bk : Backend) : noHealthReqs (ictCol2 bk) = true := by
  unfold ictCol2 noHealthReqs
  repeat' (first | split | dsimp only)
  all_goals rfl

theorem aiBlock_noHealth (bk : Backend) (p : Bool) (t : String) :
    noHealthReqs (aiBlock bk p t) = true := by
  unfold aiBlock noHealthReqs
  repeat' (first | split | dsimp only)
  all_goals rfl

theorem explorerBlock_noHealth (bk : Backend) (ds : Dataset) (fc : List String) :
    noHealthReqs (explorerBlock bk ds fc) = true := by
  cases ds <;>
    (unfold explorerBlock noHealthReqs
     repeat' (first | split | dsimp only)
     all_goals rfl)

theorem summaryBlock_noHealth (bk : Backend) : noHealthReqs (summaryBlock bk) = true := by
  unfold summaryBlock noHealthReqs
  repeat' (first | split | dsimp only)
  all_goals rfl

theorem profileBlock_noHealth (bk : Backend) (cs : List String) (pref : String) :
    noHealthReqs (profileBlock bk cs pref) = true := by
  unfold profileBlock noHealthReqs
  repeat' (first | split | dsimp only)
  all_goals rfl

theorem comparisonBlock_noHealth (bk : Backend) : noHealthReqs (comparisonBlock bk) = true := by
  unfold comparisonBlock noHealthReqs
  dsimp only
  split <;> rfl

theorem downloadBlock_noHealth (bk : Backend) (ds : Dataset) :
    noHealthReqs (downloadBlock bk ds) = true := by
  cases ds <;>
    (unfold downloadBlock noHealthReqs
     repeat' (first | split | dsimp only)
     all_goals rfl)

theorem viewBlock_noHealth (bk : Backend) (ui : UIState) (cs : List String) :
    noHealthReqs (viewBlock bk ui cs) = true := by
  unfold viewBlock
  split
  · exact aggChartBlock_noHealth _ _ _ rfl
  · exact seqB_noHealth (aggChartBlock_noHealth _ _ _ rfl) (ictCol2_noHealth bk)
  · exact aiBlock_noHealth bk ui.aiPressed ui.aiText
  · exact explorerBlock_noHealth bk ui.explorerDataset _

theorem render_noHealth (bk : Backend) (ui : UIState) :
    noHealthReqs (render bk ui) = true := by
  unfold render
  dsimp only
  exact seqB_noHealth rfl
    (seqB_noHealth (viewBlock_noHealth bk ui _)
      (seqB_noHealth (summaryBlock_noHealth bk)
        (seqB_noHealth (profileBlock_noHealth bk _ _)
          (seqB_noHealth (comparisonBlock_noHealth bk) (downloadBlock_noHealth bk _)))))

theorem aiSubmit_iff (p : Bool) (t : String) :
    aiSubmit p t = true ↔ (p = true ∧ pyStrip t ≠ "") := by
  simp [aiSubmit]

theorem render_aiQuery_mem {bk : Backend} {ui : UIState} {q : String}
    (hm : Request.aiQuery q ∈ (render bk ui).reqs) :
    ui.view = View.aiInsights ∧ aiSubmit ui.aiPressed ui.aiText = true ∧ q = ui.aiText := by
  unfold render at hm
  dsimp only at hm
  rcases mem_seqB_reqs hm with h0 | hm
  · simp at h0
  rcases mem_seqB_reqs hm with hv | hm
  · unfold viewBlock at hv
    split at hv
    · exact absurd hv
        (fun h => mem_noAi (aggChartBlock_noAi .aggRevenue "bar" bk.aggRevenue rfl) h)
    · rcases mem_seqB_reqs hv with h1 | h2
      · exact absurd h1
          (fun h => mem_noAi (aggChartBlock_noAi .aggGrossOutput "area" bk.aggGrossOutput rfl) h)
      · exact absurd h2 (fun h => mem_noAi (ictCol2_noAi bk) h)
    · rename_i hview
      rw [aiBlock_reqs] at hv
      by_cases hc : aiSubmit ui.aiPressed ui.aiText = true
      · rw [if_pos hc] at hv
        simp at hv
        exact ⟨hview, hc, hv⟩
      · rw [if_neg hc] at hv
        simp at hv
    · exact absurd hv (fun h => mem_noAi (explorerBlock_noAi bk _ _) h)
  rcases mem_seqB_reqs hm with hs | hm
  · exact absurd hs (fun h => mem_noAi (summaryBlock_noAi bk) h)
  rcases mem_seqB_reqs hm with hp | hm
  · exact absurd hp (fun h => mem_noAi (profileBlock_noAi bk _ _) h)
  rcases mem_seqB_reqs hm with hc | hd
  · exact absurd hc (fun h => mem_noAi (comparisonBlock_noAi bk) h)
  · exact absurd hd (fun h => mem_noAi (downloadBlock_noAi bk _) h)

theorem render_aiQuery_mem_of {bk : Backend} {ui : UIState}
    (hview : ui.view = View.aiInsights)
    (hc : aiSubmit ui.aiPressed ui.aiText = true) :
    Request.aiQuery ui.aiText ∈ (render bk ui).reqs := by
  unfold render
  dsimp only
  apply mem_seqB_right rfl
  apply mem_seqB_left
  unfold viewBlock
  rw [hview]
  dsimp only
  rw [aiBlock_reqs, if_pos hc]
  exact List.mem_singleton_self _

theorem isNon200_elim {r : HttpResult} (h : r.isNon200 = true) :
    ∃ s b, r = .ok s b ∧ s ≠ 200 := by
  cases r with
  | exn => simp [HttpResult.isNon200] at h
  | ok s b => exact ⟨s, b, rfl, by simpa [HttpResult.isNon200] using h⟩

theorem aggChartBlock_ok_status (req : Request) (kind : String) (s : ℕ) (b : Json) :
    (aggChartBlock req kind (.ok s b)).ok = true := by
  unfold aggChartBlock
  repeat' (first | split | dsimp only)
  all_goals (first | rfl | simp_all)

theorem ictCol2_ok {bk : Backend} (h : bk.queryPenetration.isNon200 = true) :
    (ictCol2 bk).ok = true := by
  obtain ⟨s, b, hr, hs⟩ := isNon200_elim h
  unfold ictCol2
  rw [hr]
  dsimp only
  rw [if_neg hs]

theorem aiBlock_ok {bk : Backend} (h : ∀ q, (bk.aiQuery q).isNon200 = true)
    (p : Bool) (t : String) : (aiBlock bk p t).ok = true := by
  unfold aiBlock
  split
  · obtain ⟨s, b, hr, hs⟩ := isNon200_elim (h t)
    rw [hr]
    dsimp only
    rw [if_neg hs]
  · rfl

theorem explorerBlock_ok {bk : Backend}
    (h : ∀ ds fc, (bk.queryExplorer ds fc).isNon200 = true) (ds : Dataset)
    (fc : List String) : (explorerBlock bk ds fc).ok = true := by
  obtain ⟨s, b, hr, hs⟩ := isNon200_elim (h ds fc)
  unfold explorerBlock
  rw [hr]
  dsimp only
  rw [if_neg hs]

theorem countText_halal_non200 {r : HttpResult} (h : r.isNon200 = true) :
    countText dfltHalalSummary r = some (usdText 0) := by
  obtain ⟨s, b, hr, hs⟩ := isNon200_elim h
  subst hr
  unfold countText
  dsimp only
  rw [if_neg hs]
  rfl

theorem countText_count_non200 {r : HttpResult} (h : r.isNon200 = true) :
    countText dfltCountSummary r = some (usdText 0) := by
  obtain ⟨s, b, hr, hs⟩ := isNon200_elim h
  subst hr
  unfold countText
  dsimp only
  rw [if_neg hs]
  rfl

theorem growthText_non200 {r : HttpResult} (h : r.isNon200 = true) :
    growthText r = some (pyFormat1f 75.4 ++ "%") := by
  obtain ⟨s, b, hr, hs⟩ := isNon200_elim h
  subst hr
  unfold growthText
  dsimp only
  rw [if_neg hs]
  rfl

theorem summaryBlock_ok {bk : Backend}
    (h6 : bk.summaryHalal.isNon200 = true) (h7 : bk.summaryFintech.isNon200 = true)
    (h8 : bk.summaryIct.isNon200 = true) (h9 : bk.summaryHousehold.isNon200 = true) :
    (summaryBlock bk).ok = true := by
  unfold summaryBlock
  rw [countText_halal_non200 h6, countText_count_non200 h7, countText_count_non200 h8,
    growthText_non200 h9]

theorem profileTable_non200 {r : HttpResult} (h : r.isNon200 = true) :
    profileTable r = some [] := by
  obtain ⟨s, b, hr, hs⟩ := isNon200_elim h
  subst hr
  unfold profileTable
  dsimp only
  rw [if_neg hs]
  rfl

theorem profileBlock_ok {bk : Backend}
    (hh : ∀ c, (bk.profileHalal c).isNon200 = true)
    (hf : ∀ c, (bk.profileFintech c).isNon200 = true)
    (cs : List String) (pref : String) : (profileBlock bk cs pref).ok = true := by
  unfold profileBlock
  split
  · rfl
  · split
    · rfl
    · rw [profileTable_non200 (hh _), profileTable_non200 (hf _)]

theorem viewBlock_ok {bk : Backend} {ui : UIState} {cs : List String}
    (h : unguardedNon200 bk) : (viewBlock bk ui cs).ok = true := by
  obtain ⟨h1, h2, h3, h4, h5, -⟩ := h
  unfold viewBlock
  split
  · obtain ⟨s, b, hr, -⟩ := isNon200_elim h1
    rw [hr]
    exact aggChartBlock_ok_status _ _ _ _
  · rw [seqB_ok]
    obtain ⟨s, b, hr, -⟩ := isNon200_elim h2
    rw [hr, aggChartBlock_ok_status, ictCol2_ok h3]
    rfl
  · exact aiBlock_ok h4 _ _
  · exact explorerBlock_ok h5 _ _

/-- C6, counterexample.  The claim says every render cycle performs a GET
/health probe.  At these concrete render cycles (a fully healthy backend,
on the default view and on the AI view with a submitted query) every
request of the pass has a path different from /health: the probe is never
performed, because the call to check_backend is commented out in the
source. -/
theorem c6_counterexample :
    ((render okBackend ui0).reqs.all (fun r => r.path != "/health")) = true ∧
      ((render okBackend uiAI).reqs.all (fun r => r.path != "/health")) = true :=
  ⟨by decide, by decide⟩

/-- C6, amended: the health-check function exists in the source (with a
bounded timeout, returning whether the status is 200 and false on a
transport exception), but it is never invoked: no request of any render
cycle has the path /health, and the render output does not depend on the
health call outcome at all. -/
theorem c6_amended_health_never_requested :
    (∀ (bk : Backend) (ui : UIState) (r : Request),
        r ∈ (render bk ui).reqs → r.path ≠ "/health")
    ∧ (∀ (bk : Backend) (ui : UIState) (h : HttpResult),
        render { bk with health := h } ui = render bk ui) := by
  constructor
  · intro bk ui r hm
    have := List.all_eq_true.mp (render_noHealth bk ui) _ hm
    simpa using this
  · intro bk ui h
    rfl

/-- C6, witness for the amended theorem at a concrete input. -/
theorem c6_amended_witness :
    Request.path .queryHalal ≠ "/health" ∧
      render { okBackend with health := .exn } ui0 = render okBackend ui0 :=
  ⟨c6_amended_health_never_requested.1 okBackend ui0 .queryHalal (by decide),
   c6_amended_health_never_requested.2 okBackend ui0 .exn⟩

/-- C8: the POST /ai_query request is issued during a render cycle exactly
when the AI Insights view is selected, the button was pressed, and the
query is non-empty after whitespace stripping. -/
theorem c8_ai_request_iff_submit (bk : Backend) (ui : UIState) :
    (∃ q, Request.aiQuery q ∈ (render bk ui).reqs) ↔
      (ui.view = View.aiInsights ∧ ui.aiPressed = true ∧ pyStrip ui.aiText ≠ "") := by
  constructor
  · rintro ⟨q, hq⟩
    obtain ⟨hv, hc, -⟩ := render_aiQuery_mem hq
    obtain ⟨hp, ht⟩ := (aiSubmit_iff _ _).mp hc
    exact ⟨hv, hp, ht⟩
  · rintro ⟨hv, hp, ht⟩
    exact ⟨ui.aiText, render_aiQuery_mem_of hv ((aiSubmit_iff _ _).mpr ⟨hp, ht⟩)⟩

/-- C9: when the Country Totals Accumulator is empty after the three
comparison calls, the comparison section renders nothing at all: no chart
and no message. -/
theorem c9_empty_accumulator_no_chart (bk : Backend) (h : comparisonAcc bk = []) :
    (comparisonBlock bk).widgets = [] ∧ (comparisonBlock bk).ok = true := by
  unfold comparisonBlock
  dsimp only
  rw [h]
  exact ⟨rfl, rfl⟩

/-- C9, witness: all three comparison calls raising gives an empty
accumulator and an empty comparison section. -/
theorem c9_witness :
    comparisonAcc bkCompExn = [] ∧
      ((comparisonBlock bkCompExn).widgets = [] ∧ (comparisonBlock bkCompExn).ok = true) :=
  ⟨rfl, c9_empty_accumulator_no_chart bkCompExn rfl⟩

/-- C10: the body of an issued AI query carries the text exactly as
entered, untrimmed: whitespace stripping only gates whether the request is
sent. -/
theorem c10_ai_body_is_raw_text (bk : Backend) (ui : UIState) :
    (ui.view = View.aiInsights → ui.aiPressed = true → pyStrip ui.aiText ≠ "" →
       Request.aiQuery ui.aiText ∈ (render bk ui).reqs)
    ∧ (∀ q, Request.aiQuery q ∈ (render bk ui).reqs → q = ui.aiText) := by
  constructor
  · intro hv hp ht
    exact render_aiQuery_mem_of hv ((aiSubmit_iff _ _).mpr ⟨hp, ht⟩)
  · intro q hm
    exact (render_aiQuery_mem hm).2.2

/-- C10, witness: the query text with surrounding whitespace is transmitted
verbatim. -/
theorem c10_witness :
    Request.aiQuery " hi " ∈ (render okBackend uiAI).reqs ∧ " hi " = uiAI.aiText :=
  ⟨(c10_ai_body_is_raw_text okBackend uiAI).1 rfl rfl (by decide),
   (c10_ai_body_is_raw_text okBackend uiAI).2 " hi " (by decide)⟩

theorem comparisonBlock_ok (bk : Backend) : (comparisonBlock bk).ok = true := by
  unfold comparisonBlock
  dsimp only
  split <;> rfl

theorem downloadBlock_ok (bk : Backend) (ds : Dataset) : (downloadBlock bk ds).ok = true := by
  unfold downloadBlock
  repeat' (first | split | dsimp only)

/-- C1, counterexample.  The claim says a transport exception at any call
site (the summary-metric calls among them) is caught and degrades only the
dependent widget.  With a backend that is healthy everywhere except that
the first summary call raises a transport exception, the render pass
aborts (nothing after the first summary call renders: no metrics, no
profile tables, no comparison, no download section), while the same
failure expressed as a status 500 - and a fully healthy backend - complete
the pass.  The exception is therefore neither caught nor treated like a
non-200 response at that call site. -/
theorem c1_counterexample :
    (render bkSummaryExn ui0).ok = false ∧ (render bkSummaryExn ui0).widgets = [] ∧
      (render bkSummary500 ui0).ok = true ∧ (render okBackend ui0).ok = true :=
  ⟨by decide, rfl, by decide, by decide⟩

/-- C1, amended: a non-200 status at any call site degrades only the
dependent widget and never aborts the render pass; transport exceptions
are caught only at the three call sites inside try blocks (filter source,
the comparison aggregations, download).  This theorem states the positive
part: whenever every unguarded call site returns a non-200 response, the
render pass completes, whatever the guarded sites do (including raising
transport exceptions). -/
theorem c1_amended_non200_never_aborts (bk : Backend) (ui : UIState)
    (h : unguardedNon200 bk) : (render bk ui).ok = true := by
  obtain ⟨h1, h2, h3, h4, h5, h6, h7, h8, h9, h10, h11⟩ := h
  unfold render
  dsimp only
  simp only [seqB_ok]
  rw [viewBlock_ok ⟨h1, h2, h3, h4, h5, h6, h7, h8, h9, h10, h11⟩,
    summaryBlock_ok h6 h7 h8 h9, profileBlock_ok h10 h11 _ _,
    comparisonBlock_ok, downloadBlock_ok]
  rfl

/-- C1, witness for the amended theorem: the all-500 backend satisfies the
hypothesis and its render pass completes. -/
theorem c1_amended_witness :
    unguardedNon200 bk500 ∧ (render bk500 ui0).ok = true := by
  have h : unguardedNon200 bk500 :=
    ⟨rfl, rfl, rfl, fun q => rfl, fun ds fc => rfl, rfl, rfl, rfl, rfl,
     fun c => rfl, fun c => rfl⟩
  exact ⟨h, c1_amended_non200_never_aborts bk500 ui0 h⟩

/-- C4: the country selector options.  On a transport exception or a
non-200 status the option list is exactly Malaysia, Indonesia, Saudi
Arabia; on a 200 response whose rows read cleanly, the options are the
distinct country values of the rows (stated order-insensitively, because
the source enumerates a Python set). -/
theorem c4_country_selector_options (bk : Backend) :
    (bk.queryHalal = .exn → countriesResult bk = ["Malaysia", "Indonesia", "Saudi Arabia"])
    ∧ (∀ s b, bk.queryHalal = .ok s b → s ≠ 200 →
        countriesResult bk = ["Malaysia", "Indonesia", "Saudi Arabia"])
    ∧ (∀ rows cs, bk.queryHalal = .ok 200 (.arr rows) → extractCountryList rows = some cs →
        ((∀ x, x ∈ countriesResult bk ↔ x ∈ cs) ∧ (countriesResult bk).Nodup)) := by
  refine ⟨?_, ?_, ?_⟩
  · intro h
    unfold countriesResult
    rw [h]
    rfl
  · intro s b h hs
    unfold countriesResult
    rw [h]
    dsimp only
    rw [if_neg hs]
    rfl
  · intro rows cs h hcs
    unfold countriesResult
    rw [h]
    dsimp only
    rw [if_pos rfl]
    rw [hcs]
    exact ⟨fun x => List.mem_dedup, List.nodup_dedup cs⟩

/-- C4, witness at three concrete backends: a transport exception, a 500
status, and a clean 200 response with one Malaysia row. -/
theorem c4_witness :
    countriesResult bkFilterExn = ["Malaysia", "Indonesia", "Saudi Arabia"] ∧
      countriesResult bk500 = ["Malaysia", "Indonesia", "Saudi Arabia"] ∧
      ((∀ x, x ∈ countriesResult okBackend ↔ x ∈ ["Malaysia"]) ∧
        (countriesResult okBackend).Nodup) :=
  ⟨(c4_country_selector_options bkFilterExn).1 rfl,
   (c4_country_selector_options bk500).2.1 500 .null rfl (by decide),
   (c4_country_selector_options okBackend).2.2 [.obj [("country", .str "Malaysia")]]
     ["Malaysia"] rfl rfl⟩

theorem Dec_mul_def (a b : Dec) : a * b = ⟨a.m * b.m, a.e + b.e⟩ := rfl

theorem roundHalfEven_e0 (z : ℤ) : Dec.roundHalfEven ⟨z, 0⟩ = z := by
  simp [Dec.roundHalfEven, Dec.floorZ, Int.fdiv_one]

theorem pyFormatComma0_natCast (n : ℕ) : pyFormatComma0 ⟨(n : ℤ), 0⟩ = commaFmt n := by
  unfold pyFormatComma0
  rw [roundHalfEven_e0]
  dsimp only
  rw [if_neg (not_lt.mpr (Int.natCast_nonneg n))]
  rw [Int.natAbs_ofNat]
  rfl

theorem usdText_natCast (n : ℕ) :
    usdText ⟨(n : ℤ), 0⟩ = "$" ++ commaFmt (n * 1000000) ++ " USD" := by
  unfold usdText
  have h : (⟨(n : ℤ), 0⟩ : Dec) * 1000000 = (⟨((n * 1000000 : ℕ) : ℤ), 0⟩ : Dec) := rfl
  rw [h, pyFormatComma0_natCast]

/-- C3: the summary metric texts.  A 200 response with an integer count n
displays the currency text of n * 1,000,000 (so count 3 displays
$3,000,000 USD); a non-200 status displays $0 USD for the three count
metrics; the fourth metric displays avg_growth_rate with one decimal and a
percent sign, and 75.4% on a non-200 status. -/
theorem c3_summary_metric_values :
    (∀ n : ℕ, countText dfltHalalSummary (.ok 200 (.obj [("count", .num ⟨(n : ℤ), 0⟩)]))
        = some ("$" ++ commaFmt (n * 1000000) ++ " USD"))
    ∧ countText dfltHalalSummary (.ok 200 (.obj [("count", .num 3)])) = some "$3,000,000 USD"
    ∧ (∀ s b, s ≠ 200 → countText dfltHalalSummary (.ok s b) = some "$0 USD")
    ∧ (∀ s b, s ≠ 200 → countText dfltCountSummary (.ok s b) = some "$0 USD")
    ∧ (∀ d : Dec, growthText (.ok 200 (.obj [("avg_growth_rate", .num d)]))
        = some (pyFormat1f d ++ "%"))
    ∧ (∀ s b, s ≠ 200 → growthText (.ok s b) = some "75.4%") := by
  refine ⟨?_, by decide, ?_, ?_, fun d => rfl, ?_⟩
  · intro n
    show some (usdText ⟨(n : ℤ), 0⟩) = _
    rw [usdText_natCast]
  · intro s b hs
    rw [countText_halal_non200 (by simp [HttpResult.isNon200, hs])]
    decide
  · intro s b hs
    rw [countText_count_non200 (by simp [HttpResult.isNon200, hs])]
    decide
  · intro s b hs
    rw [growthText_non200 (by simp [HttpResult.isNon200, hs])]
    decide

/-- C3, witness at concrete inputs, among them the two worked examples of
spec section 8. -/
theorem c3_witness :
    countText dfltHalalSummary (.ok 200 (.obj [("count", .num ⟨((3 : ℕ) : ℤ), 0⟩)]))
        = some ("$" ++ commaFmt (3 * 1000000) ++ " USD") ∧
      countText dfltHalalSummary (.ok 404 .null) = some "$0 USD" ∧
      countText dfltCountSummary (.ok 404 .null) = some "$0 USD" ∧
      growthText (.ok 200 (.obj [("avg_growth_rate", .num 80)])) = some (pyFormat1f 80 ++ "%") ∧
      growthText (.ok 404 .null) = some "75.4%" :=
  ⟨c3_summary_metric_values.1 3,
   c3_summary_metric_values.2.2.1 404 .null (by decide),
   c3_summary_metric_values.2.2.2.1 404 .null (by decide),
   c3_summary_metric_values.2.2.2.2.1 80,
   c3_summary_metric_values.2.2.2.2.2 404 .null (by decide)⟩

/-- C2, counterexample.  The claim says every country present in at least
one response gets an explicit 0 for each sector label it is missing.  With
only the first comparison endpoint succeeding (one Malaysia row), Malaysia
is charted, but no (Malaysia, Islamic Fintech) or (Malaysia, ICT Services)
entry exists at all - there is no 0-valued cell, because fillna(0) only
fills columns that exist in the accumulator. -/
theorem c2_counterexample :
    comparisonAcc bkOneSector = [("Malaysia", [("Halal E-commerce", 2000000)])] ∧
      (comparisonBlock bkOneSector).widgets =
        [.groupedChart [("Malaysia", "Halal E-commerce", 2000000)]] ∧
      (meltRows (comparisonAcc bkOneSector)).all (fun t => t.2.1 != "Islamic Fintech") = true :=
  ⟨by decide, rfl, by decide⟩

/-- C2, amended: the accumulator stores total * 1,000,000 under
(country, label); a failed endpoint contributes nothing; and before
charting, every country of the accumulator appears with value 0 for each
sector label that is present in the accumulator (for some country) and
missing for it. -/
theorem c2_amended_accumulate_and_fill :
    (∀ (acc : CTAcc) (l c : String) (t : Dec) (rest : List Json) (r : Json),
        r.getField "country" = some (.str c) → r.getField "total" = some (.num t) →
        accumRows l acc (r :: rest) = accumRows l (accInsert acc c l (t * 1000000)) rest)
    ∧ (∀ (acc : CTAcc) (l : String), endpointAcc l .exn acc = acc)
    ∧ (∀ (acc : CTAcc) (l : String) (s : ℕ) (b : Json), s ≠ 200 →
        endpointAcc l (.ok s b) acc = acc)
    ∧ (∀ (acc : CTAcc) (c l : String), c ∈ accCountries acc → l ∈ accLabels acc →
        (c, l, (accLookup acc c l).getD 0) ∈ meltRows acc) := by
  refine ⟨?_, fun acc l => rfl, ?_, ?_⟩
  · intro acc l c t rest r h1 h2
    have hr : rowCountryTotal r = some (c, t) := by
      unfold rowCountryTotal
      rw [h1, h2]
    simp only [accumRows]
    rw [hr]
  · intro acc l s b hs
    unfold endpointAcc
    dsimp only
    rw [if_neg hs]
  · intro acc c l hc hl
    unfold meltRows
    rw [List.mem_flatMap]
    exact ⟨l, hl, List.mem_map.mpr ⟨c, hc, rfl⟩⟩

/-- C2, witness: the worked example of spec section 8 (three successful
endpoints each returning one Malaysia row of total 2), plus concrete
instances of the accumulation step, the two failure modes, and the
0-filled cell lookup. -/
theorem c2_witness :
    comparisonAcc bkThreeSectors = accEx ∧
      accumRows "Halal E-commerce" []
          [.obj [("country", .str "Malaysia"), ("total", .num 2)]]
        = accumRows "Halal E-commerce"
            (accInsert [] "Malaysia" "Halal E-commerce" ((2 : Dec) * 1000000)) [] ∧
      endpointAcc "Islamic Fintech" .exn accEx = accEx ∧
      endpointAcc "Islamic Fintech" (.ok 500 .null) accEx = accEx ∧
      ("Malaysia", "Islamic Fintech", (accLookup accEx "Malaysia" "Islamic Fintech").getD 0)
        ∈ meltRows accEx :=
  ⟨by decide,
   c2_amended_accumulate_and_fill.1 [] "Halal E-commerce" "Malaysia" 2 [] _ rfl rfl,
   c2_amended_accumulate_and_fill.2.1 accEx "Islamic Fintech",
   c2_amended_accumulate_and_fill.2.2.1 accEx "Islamic Fintech" 500 .null (by decide),
   c2_amended_accumulate_and_fill.2.2.2 accEx "Malaysia" "Islamic Fintech"
     (by decide) (by decide)⟩

/-- C5, counterexample.  The claim says every tabulating call site
normalizes a single-object body to a one-element list.  The country
profile tables pass the body to tabulation unnormalized: a 200 response
with a single scalar object makes pandas raise, aborting the render pass
instead of producing a one-row table. -/
theorem c5_counterexample :
    pdDataFrame (.obj [("a", .num 1)]) = none ∧
      (render bkScalarProfile ui0).ok = false ∧
      (profileBlock bkScalarProfile ["Malaysia"] "Malaysia").widgets = [] :=
  ⟨rfl, by decide, rfl⟩

theorem normalizeToList_single {j : Json} (h : j.isArr = false) : normalizeToList j = [j] := by
  cases j <;> simp_all [normalizeToList, Json.isArr]

/-- C5, amended: the call sites that apply the list-or-object
normalization (the three aggregation tabulations, the penetration query,
the data explorer, and the comparison loop all go through normalizeToList)
turn a single-object body into a one-row table; the country-profile tables
(and the AI result table) tabulate without this normalization. -/
theorem c5_amended_normalizing_sites :
    (∀ j : Json, j.isArr = false →
        normalizeToList j = [j] ∧ (normalizeToList j).length = 1)
    ∧ (∀ (bk : Backend) (ui : UIState) (cs : List String) (j : Json),
        ui.view = .dataExplorer → j.isArr = false →
        bk.queryExplorer ui.explorerDataset
            (ui.explorerCountries.filter (fun c => cs.contains c)) = .ok 200 j →
        (viewBlock bk ui cs).widgets = [.table [j]]) := by
  constructor
  · intro j h
    rw [normalizeToList_single h]
    exact ⟨rfl, rfl⟩
  · intro bk ui cs j hv hj hr
    unfold viewBlock
    rw [hv]
    dsimp only
    unfold explorerBlock
    rw [hr]
    dsimp only
    rw [if_pos rfl]
    dsimp only
    rw [normalizeToList_single hj]

/-- C5, witness: a single-object explorer response renders as a one-row
table. -/
theorem c5_amended_witness :
    (normalizeToList (.obj [("x", .num 1)]) = [.obj [("x", .num 1)]] ∧
      (normalizeToList (.obj [("x", .num 1)])).length = 1) ∧
      (viewBlock bkExplorerObj uiExplorer ["Malaysia"]).widgets =
        [.table [.obj [("x", .num 1)]]] :=
  ⟨c5_amended_normalizing_sites.1 _ rfl,
   c5_amended_normalizing_sites.2 bkExplorerObj uiExplorer ["Malaysia"] _ rfl rfl rfl⟩

/-- C7, counterexample.  The claim says the charted value equals the row
string with a trailing percent sign stripped, then parsed.  The code
removes every percent sign: for the row value with a leading percent sign
the chart shows 45.2, while the spec description (strip a trailing percent
only, then parse) does not produce a number at all. -/
theorem c7_counterexample :
    (ictCol2 bkPenLeading).widgets =
        [.chart "bar" "country" "internet_penetration"
          [.obj [("country", .str "X"), ("internet_penetration", .num (45.2 : Dec))]]
          (some (0, 100))] ∧
      parseDecimal (specStripTrailingPct "%45.2") = none :=
  ⟨rfl, by decide⟩

/-- C7, amended: the charted value equals the row string with every
percent sign removed, parsed as a float - which agrees with stripping a
trailing percent sign whenever the percent sign occurs only as a trailing
suffix - and the penetration chart always fixes the y range to [0, 100]. -/
theorem c7_amended_percent_parsing :
    (∀ (r : Json) (s : String) (d : Dec),
        r.getField "internet_penetration" = some (.str s) →
        parseDecimal (stripPct s) = some d →
        penRow r = some (r.setField "internet_penetration" (.num d)))
    ∧ (∀ (s t : String), s.toList = t.toList ++ ['%'] → '%' ∉ t.toList → stripPct s = t)
    ∧ (∀ (bk : Backend) (w : Widget), w ∈ (ictCol2 bk).widgets →
        ∃ rows, w = .chart "bar" "country" "internet_penetration" rows (some (0, 100))) := by
  refine ⟨?_, ?_, ?_⟩
  · intro r s d h1 h2
    unfold penRow
    rw [h1]
    dsimp only
    rw [h2]
    rfl
  · intro s t hs ht
    obtain ⟨sd⟩ := s
    obtain ⟨td⟩ := t
    have hs2 : sd = td ++ ['%'] := hs
    have ht2 : '%' ∉ td := ht
    show String.mk (List.filter (fun c => decide (c ≠ '%')) sd) = String.mk td
    rw [hs2, List.filter_append]
    have hf : td.filter (fun c => decide (c ≠ '%')) = td :=
      List.filter_eq_self.mpr (fun a ha => by
        simp only [decide_eq_true_eq]
        intro heq
        exact ht2 (heq ▸ ha))
    have h1 : (['%'].filter (fun c => decide (c ≠ '%'))) = [] := rfl
    rw [hf, h1, List.append_nil]
  · intro bk w hw
    unfold ictCol2 at hw
    rcases hq : bk.queryPenetration with _ | ⟨s, body⟩ <;> rw [hq] at hw
    · simp at hw
    · dsimp only at hw
      by_cases h200 : s = 200
      · rw [if_pos h200] at hw
        by_cases hemp : dfEmpty (normalizeToList body) = true
        · rw [if_pos hemp] at hw
          simp at hw
        · rw [if_neg hemp] at hw
          rcases hpd : penDf (normalizeToList body) with _ | rows2 <;> rw [hpd] at hw
          · simp at hw
          · simp at hw
            exact ⟨rows2, hw⟩
      · rw [if_neg h200] at hw
        simp at hw

/-- C7, witness: a well-formed trailing-percent row parses to its decimal,
and the chart the code renders for it carries the fixed [0, 100] range. -/
theorem c7_witness :
    penRow (.obj [("country", .str "X"), ("internet_penetration", .str "45.2%")])
        = some ((Json.obj [("country", .str "X"),
            ("internet_penetration", .str "45.2%")]).setField
              "internet_penetration" (.num (45.2 : Dec))) ∧
      stripPct "45.2%" = "45.2" ∧
      (∃ rows, Widget.chart "bar" "country" "internet_penetration"
          [.obj [("country", .str "X"), ("internet_penetration", .num (45.2 : Dec))]]
          (some (0, 100))
        = .chart "bar" "country" "internet_penetration" rows (some (0, 100))) :=
  ⟨c7_amended_percent_parsing.1 _ "45.2%" (45.2 : Dec) rfl (by decide),
   c7_amended_percent_parsing.2.1 "45.2%" "45.2" (by decide) (by decide),
   c7_amended_percent_parsing.2.2 bkPenPlain _ (List.mem_singleton_self _)⟩
